import Mathlib

/-
Verification of the roc-pdf platform core (src/platform/src/lib.rs).

The Rust source builds one fixed in-memory PDF document with the lopdf
library, stores it in a process-wide registry slot, and exposes a save
capability to the foreign application.  We shallowly embed:

  * the lopdf object model the builder manipulates (ObjectId, Object,
    Document with an object table, trailer and max-id counter), with
    add_object / new_object_id / insert / trailer-set following lopdf's
    semantics (fresh ids are (max_id+1, 0); insert replaces by key);
  * the builder PdfDocument::new, translated statement by statement;
  * lopdf's Document::compress, which calls Stream::compress on every
    stream that allows compression: a stream is rewritten only when it has
    no Filter entry yet and the zlib re-encoding shrinks its content by
    more than 19 bytes (the source guard is
    compressed.len() + 19 < content.len()); the zlib size test itself
    cannot be computed inside the embedding, so it is modelled by its
    outcome on the streams this program constructs (see zlibShrinks); the
    decoded operation list is untouched either way, which is exactly what
    lopdf's stream compression guarantees;
  * the host entry points: roc_fx_save (returning the result, the new
    registry slot and the list of filesystem writes it performs, with a
    Boolean oracle for the outcome of the underlying lopdf save call) and
    the double-init check at the top of main, as a step relation over a
    world state (registry slot plus filesystem write log); aborting the
    process is modelled as the step relation returning none.
-/

namespace RocPdf

/-- Model of lopdf ObjectId: a (number, generation) pair. -/
structure ObjectId where
  num : Nat
  gen : Nat
deriving DecidableEq

/-- Model of the lopdf Object values used by this program: names, integers,
string literals, references, arrays, dictionaries, and streams.  A stream
carries its dictionary, its decoded operation list (each operation is an
operator name with its operand objects; the encoded bytes of the real
stream are a faithful encoding of this list, per lopdf's Content encode /
decode pair), and a flag recording whether the stream has been compressed
by Document::compress. -/
inductive Object where
  | name : String → Object
  | integer : Int → Object
  | strLit : String → Object
  | reference : ObjectId → Object
  | array : List Object → Object
  | dictionary : List (String × Object) → Object
  | stream : List (String × Object) → List (String × List Object) → Bool → Object

/-- A decoded content-stream operation: operator name and operand list. -/
abbrev Operation := String × List Object

/-- Model of lopdf Document: format version, max allocated object number,
object table (association list keyed by ObjectId, keys unique), trailer. -/
structure Document where
  version : String
  maxId : Nat
  objects : List (ObjectId × Object)
  trailer : List (String × Object)

/-- lopdf Document::with_version: empty document with the given version. -/
def Document.with_version (v : String) : Document :=
  { version := v, maxId := 0, objects := [], trailer := [] }

/-- lopdf Document::new_object_id: bump max_id and return (max_id, 0). -/
def Document.new_object_id (d : Document) : ObjectId × Document :=
  (⟨d.maxId + 1, 0⟩, { d with maxId := d.maxId + 1 })

/-- Insert into an association list, replacing the binding if the key is
already present (BTreeMap::insert semantics). -/
def insertAssoc (id : ObjectId) (o : Object) :
    List (ObjectId × Object) → List (ObjectId × Object)
  | [] => [(id, o)]
  | (k, v) :: rest =>
      if k = id then (id, o) :: rest else (k, v) :: insertAssoc id o rest

/-- lopdf BTreeMap insert on the object table (doc.objects.insert). -/
def Document.insertObject (d : Document) (id : ObjectId) (o : Object) : Document :=
  { d with objects := insertAssoc id o d.objects }

/-- lopdf Document::add_object: allocate a fresh id and insert the object. -/
def Document.add_object (d : Document) (o : Object) : ObjectId × Document :=
  let p := d.new_object_id
  (p.1, p.2.insertObject p.1 o)

/-- Lookup in the object table (lopdf Document::get_object). -/
def Document.get (d : Document) (id : ObjectId) : Option Object :=
  (d.objects.find? (fun p => p.1 = id)).map (·.2)

/-- lopdf Dictionary::set on the trailer (doc.trailer.set). -/
def Document.trailerSet (d : Document) (k : String) (v : Object) : Document :=
  { d with trailer := d.trailer ++ [(k, v)] }

/-- The in-memory handle stored in the registry: the document plus the
page-tree root id (struct PdfDocument in lib.rs). -/
structure PdfDocument where
  doc : Document
  pages_id : ObjectId

/-- PdfDocument::new from lib.rs, translated statement by statement:
reserve the page-tree root id, add the Courier font, the resource
dictionary mapping F1 to the font, the content stream with the fixed
five-operation text sequence, the page object, then fill the reserved
page-tree root slot, add the catalog and set the trailer Root. -/
def PdfDocument.new : PdfDocument :=
  let doc := Document.with_version "1.5"
  let p1 := doc.new_object_id
  let pages_id := p1.1
  let doc := p1.2
  let p2 := doc.add_object (.dictionary
    [("Type", .name "Font"),
     ("Subtype", .name "Type1"),
     ("BaseFont", .name "Courier")])
  let font_id := p2.1
  let doc := p2.2
  let p3 := doc.add_object (.dictionary
    [("Font", .dictionary [("F1", .reference font_id)])])
  let resources_id := p3.1
  let doc := p3.2
  let content : List Operation :=
    [("BT", []),
     ("Tf", [.name "F1", .integer 48]),
     ("Td", [.integer 100, .integer 600]),
     ("Tj", [.strLit "Hello World!"]),
     ("ET", [])]
  let p4 := doc.add_object (.stream [] content false)
  let content_id := p4.1
  let doc := p4.2
  let p5 := doc.add_object (.dictionary
    [("Type", .name "Page"),
     ("Parent", .reference pages_id),
     ("Contents", .reference content_id)])
  let page_id := p5.1
  let doc := p5.2
  let pages : Object := .dictionary
    [("Type", .name "Pages"),
     ("Kids", .array [.reference page_id]),
     ("Count", .integer 1),
     ("Resources", .reference resources_id),
     ("MediaBox", .array [.integer 0, .integer 0, .integer 595, .integer 842])]
  let doc := doc.insertObject pages_id pages
  let p6 := doc.add_object (.dictionary
    [("Type", .name "Catalog"),
     ("Pages", .reference pages_id)])
  let catalog_id := p6.1
  let doc := p6.2
  let doc := doc.trailerSet "Root" (.reference catalog_id)
  ⟨doc, pages_id⟩

/-- Whether a dictionary body binds a key (lopdf Dictionary::has). -/
def dictHasKey (d : List (String × Object)) (k : String) : Bool :=
  d.any (fun p => p.1 = k)

/-- lopdf Dictionary::set: replace the binding if the key is present,
append it otherwise. -/
def dictSet (k : String) (v : Object) :
    List (String × Object) → List (String × Object)
  | [] => [(k, v)]
  | p :: rest => if p.1 = k then (k, v) :: rest else p :: dictSet k v rest

/-- Outcome of the zlib size test in lopdf Stream::compress, which
rewrites a stream only when compressed.len() + 19 < content.len().  The
compressed length of the external flate2 encoder is not computable inside
the embedding, so the test is modelled by its value on the streams this
program constructs: the single content stream built by PdfDocument.new
encodes to about 45 bytes of non-repetitive text
(BT /F1 48 Tf 100 600 Td (Hello World!) Tj ET), which a zlib stream
(2-byte header, deflate data, 4-byte checksum) cannot bring under the
required 26 bytes, so the test is false. -/
def zlibShrinks (_ops : List (String × List Object)) : Bool :=
  false

/-- lopdf Stream::compress on one object: a stream with no Filter entry
whose zlib re-encoding passes the size test gets the FlateDecode filter
set and its content replaced by the compressed bytes (the decoded
operation list is preserved); every other stream, and every non-stream
object, is returned unchanged. -/
def Object.compressObj : Object → Object
  | .stream d ops c =>
      if dictHasKey d "Filter" then .stream d ops c
      else if zlibShrinks ops then
        .stream (dictSet "Filter" (.name "FlateDecode") d) ops true
      else .stream d ops c
  | o => o

/-- lopdf Document::compress: apply Stream::compress to every stream in
the object table (every stream this program builds allows compression). -/
def Document.compress (d : Document) : Document :=
  { d with objects := d.objects.map (fun p => (p.1, p.2.compressObj)) }

/-- The decoded view of an object: forget the stream encoding state.  Two
documents with equal decoded views have byte-identical page and decoded
content structure. -/
def Object.decodedObj : Object → Object
  | .stream d ops _ => .stream d ops false
  | o => o

/-- The decoded view of a whole document. -/
def Document.decodedView (d : Document) : Document :=
  { d with objects := d.objects.map (fun p => (p.1, p.2.decodedObj)) }

/-- Decoded operation list of the stream stored at the given id, when that
object is a stream. -/
def Document.decodedContentOps (d : Document) (id : ObjectId) :
    Option (List Operation) :=
  (d.get id).bind fun o =>
    match o with
    | .stream _ ops _ => some ops
    | _ => none

mutual
/-- All object references appearing inside an object. -/
def Object.refs : Object → List ObjectId
  | .name _ => []
  | .integer _ => []
  | .strLit _ => []
  | .reference id => [id]
  | .array xs => refsOfObjs xs
  | .dictionary d => refsOfDict d
  | .stream d ops _ => refsOfDict d ++ refsOfOps ops

/-- References of a list of objects. -/
def refsOfObjs : List Object → List ObjectId
  | [] => []
  | o :: os => o.refs ++ refsOfObjs os

/-- References of a dictionary body. -/
def refsOfDict : List (String × Object) → List ObjectId
  | [] => []
  | p :: rest => p.2.refs ++ refsOfDict rest

/-- References of an operation list. -/
def refsOfOps : List (String × List Object) → List ObjectId
  | [] => []
  | p :: rest => refsOfObjs p.2 ++ refsOfOps rest
end

/-- Whether an id is bound in the object table. -/
def Document.hasObject (d : Document) (id : ObjectId) : Bool :=
  (d.get id).isSome

/-- Whether every reference used inside any object of the table, or inside
the trailer, resolves to an object present in the table. -/
def Document.allRefsResolve (d : Document) : Bool :=
  (d.objects.all fun p => p.2.refs.all d.hasObject) &&
  ((refsOfDict d.trailer).all d.hasObject)

/-- Lookup of a key in a dictionary object (lopdf Dictionary::get). -/
def Object.dictGet : Object → String → Option Object
  | .dictionary d, k => (d.find? (fun p => p.1 = k)).map (·.2)
  | _, _ => none

/-- Outcome of one roc_fx_save call: the RocResult returned to the
application, the registry slot afterwards, and the filesystem writes
performed (path together with the document serialized there). -/
structure SaveOutcome where
  result : Except String Unit
  registry : Option PdfDocument
  writes : List (String × Document)

/-- roc_fx_save from lib.rs.  The registry slot is passed explicitly (in
the source it is the mutex-guarded global DOCUMENT); fsOk is the outcome
of the underlying lopdf Document::save call (true: the write succeeds;
false: it fails with an I/O or encoding error).  On an empty slot the
function returns the error string with no filesystem interaction; on a
present slot it first compresses the stored document in place, then
attempts the write. -/
def roc_fx_save (state : Option PdfDocument) (path : String) (fsOk : Bool) :
    SaveOutcome :=
  match state with
  | none => ⟨.error "DOCUMENT NOT FOUND", none, []⟩
  | some pdf =>
      let pdf2 : PdfDocument := ⟨pdf.doc.compress, pdf.pages_id⟩
      if fsOk then ⟨.ok (), some pdf2, [(path, pdf2.doc)]⟩
      else ⟨.error "ERROR SAVING DOCUMENT", some pdf2, []⟩

/-- World state of the host process: the registry slot (the global
DOCUMENT) and the log of filesystem writes performed so far. -/
structure WorldState where
  registry : Option PdfDocument
  writes : List (String × Document)

/-- The operations the host can perform on the registry: the
initialization block at the top of main (HostOp.init), and a save call
with its path and its filesystem outcome. -/
inductive HostOp where
  | init : HostOp
  | save : String → Bool → HostOp
deriving DecidableEq

/-- One step of the host.  Initialization with a non-empty slot is the
fatal double-initialization path of main (dbg + panic in an extern fn, so
the process aborts): modelled as none.  Every other step returns the new
world. -/
def stepOp (w : WorldState) : HostOp → Option WorldState
  | .init =>
      match w.registry with
      | some _ => none
      | none => some ⟨some PdfDocument.new, w.writes⟩
  | .save path fsOk =>
      let r := roc_fx_save w.registry path fsOk
      some ⟨r.registry, w.writes ++ r.writes⟩

/-- Run a sequence of host operations; none means the process aborted
somewhere in the sequence, and no later operation executed. -/
def run (w : WorldState) : List HostOp → Option WorldState
  | [] => some w
  | o :: os =>
      match stepOp w o with
      | none => none
      | some w2 => run w2 os

/- ------------------------------------------------------------------ -/
/- Helper lemmas                                                      -/
/- ------------------------------------------------------------------ -/

/-- Once the registry slot is non-empty, any sequence of save operations
keeps it non-empty, so a later initialization step aborts the run. -/
theorem run_saves_then_init_aborts (mid : List HostOp) :
    ∀ w : WorldState, (∀ o ∈ mid, o ≠ HostOp.init) →
      w.registry.isSome = true →
      ∀ post : List HostOp, run w (mid ++ HostOp.init :: post) = none := by
  induction mid with
  | nil =>
      intro w _ hsome post
      obtain ⟨reg, ws⟩ := w
      cases reg with
      | none => simp [Option.isSome] at hsome
      | some pdf => rfl
  | cons o os ih =>
      intro w hno hsome post
      have hne : o ≠ HostOp.init := hno o (List.mem_cons_self o os)
      cases o with
      | init => exact absurd rfl hne
      | save p b =>
          obtain ⟨reg, ws⟩ := w
          cases reg with
          | none => simp [Option.isSome] at hsome
          | some pdf =>
              cases b with
              | true =>
                  show run ⟨some ⟨pdf.doc.compress, pdf.pages_id⟩,
                      ws ++ [(p, pdf.doc.compress)]⟩
                    (os ++ HostOp.init :: post) = none
                  exact ih ⟨some ⟨pdf.doc.compress, pdf.pages_id⟩,
                      ws ++ [(p, pdf.doc.compress)]⟩
                    (fun o ho => hno o (List.mem_cons_of_mem _ ho)) rfl post
              | false =>
                  show run ⟨some ⟨pdf.doc.compress, pdf.pages_id⟩, ws ++ []⟩
                    (os ++ HostOp.init :: post) = none
                  exact ih ⟨some ⟨pdf.doc.compress, pdf.pages_id⟩, ws ++ []⟩
                    (fun o ho => hno o (List.mem_cons_of_mem _ ho)) rfl post

/- ------------------------------------------------------------------ -/
/- Claim theorems                                                     -/
/- ------------------------------------------------------------------ -/

/-- C1: for every path (and every filesystem behavior), calling save while
the registry slot is empty returns the error DOCUMENT NOT FOUND, leaves
the slot empty, and performs no filesystem write. -/
theorem save_on_empty_slot (path : String) (fsOk : Bool) :
    roc_fx_save none path fsOk =
      ⟨.error "DOCUMENT NOT FOUND", none, []⟩ := rfl

/-- C2: for every path and every stored document, save on a present slot
first compresses the stored document, then writes exactly that compressed
document to the path; on failure it returns the error ERROR SAVING
DOCUMENT and writes nothing, on success it returns ok with no value; in
both cases the slot remains present (holding the compressed document), so
save may be called again. -/
theorem save_on_present_slot (pdf : PdfDocument) (path : String) (fsOk : Bool) :
    roc_fx_save (some pdf) path fsOk =
      ⟨(if fsOk then .ok () else .error "ERROR SAVING DOCUMENT"),
       some ⟨pdf.doc.compress, pdf.pages_id⟩,
       (if fsOk then [(path, pdf.doc.compress)] else [])⟩ := by
  cases fsOk with
  | true => rfl
  | false => rfl

/-- C3: starting from the empty registry, initializing, then running any
operations that are not an initialization, then initializing a second
time, aborts the process: the run returns none, whatever operations
follow, so nothing after the second initialization executes. -/
theorem double_init_aborts (mid : List HostOp)
    (hmid : ∀ o ∈ mid, o ≠ HostOp.init) (post : List HostOp) :
    run ⟨none, []⟩ (HostOp.init :: mid ++ HostOp.init :: post) = none := by
  have h1 : run ⟨none, []⟩ (HostOp.init :: mid ++ HostOp.init :: post) =
      run ⟨some PdfDocument.new, []⟩ (mid ++ HostOp.init :: post) := rfl
  rw [h1]
  exact run_saves_then_init_aborts mid ⟨some PdfDocument.new, []⟩ hmid rfl post

/-- Witness for C3 at a concrete sequence: init, one save, init again. -/
theorem double_init_aborts_witness :
    run ⟨none, []⟩ (HostOp.init :: [HostOp.save "out.pdf" true] ++
      HostOp.init :: []) = none :=
  double_init_aborts [HostOp.save "out.pdf" true] (by decide) []

/-- C4: in the built document, the page object's Contents entry references
the content stream, and that stream decodes to exactly the five
instructions BT; Tf F1 48; Td 100 600; Tj (Hello World!); ET, in that
order and nothing else. -/
theorem content_stream_is_hello_world :
    ((PdfDocument.new.doc.get ⟨5, 0⟩).bind
        (fun pg => pg.dictGet "Contents")) = some (.reference ⟨4, 0⟩)
    ∧ PdfDocument.new.doc.decodedContentOps ⟨4, 0⟩ =
        some [("BT", []),
              ("Tf", [.name "F1", .integer 48]),
              ("Td", [.integer 100, .integer 600]),
              ("Tj", [.strLit "Hello World!"]),
              ("ET", [])] :=
  ⟨rfl, rfl⟩

/-- C5: in the built document, the page-tree root dictionary has type
Pages, kids exactly the one page id, count 1, resources pointing at the
resource dictionary whose only entry maps F1 to the font object, and
media box the rectangle 0 0 595 842. -/
theorem pages_root_shape :
    PdfDocument.new.doc.get PdfDocument.new.pages_id =
      some (.dictionary
        [("Type", .name "Pages"),
         ("Kids", .array [.reference ⟨5, 0⟩]),
         ("Count", .integer 1),
         ("Resources", .reference ⟨3, 0⟩),
         ("MediaBox", .array
           [.integer 0, .integer 0, .integer 595, .integer 842])])
    ∧ PdfDocument.new.doc.get ⟨3, 0⟩ =
        some (.dictionary [("Font", .dictionary [("F1", .reference ⟨2, 0⟩)])])
    ∧ PdfDocument.new.doc.get ⟨2, 0⟩ =
        some (.dictionary
          [("Type", .name "Font"),
           ("Subtype", .name "Type1"),
           ("BaseFont", .name "Courier")]) :=
  ⟨rfl, rfl, rfl⟩

/-- C6: the builder is deterministic and effect-free.  It is embedded as
the closed term PdfDocument.new, which takes no inputs; this theorem shows
that running the initialization step from any world with an empty slot
stores exactly that one fixed value (so any two calls store equal
documents) and leaves the filesystem write log untouched. -/
theorem build_deterministic_no_effects (w : WorldState)
    (h : w.registry = none) :
    stepOp w HostOp.init = some ⟨some PdfDocument.new, w.writes⟩ := by
  obtain ⟨reg, ws⟩ := w
  cases reg with
  | none => rfl
  | some pdf => exact Option.noConfusion h

/-- Witness for C6 at the concrete starting world. -/
theorem build_deterministic_no_effects_witness :
    stepOp ⟨none, []⟩ HostOp.init = some ⟨some PdfDocument.new, []⟩ :=
  build_deterministic_no_effects ⟨none, []⟩ rfl

/-- C7: in the built document every reference used inside any object of
the table or inside the trailer resolves to an object present in the
table, and in particular the page-tree root slot reserved up front is
filled before the builder returns. -/
theorem all_references_resolve :
    PdfDocument.new.doc.allRefsResolve = true
    ∧ PdfDocument.new.doc.hasObject PdfDocument.new.pages_id = true :=
  ⟨rfl, rfl⟩

/-- The document written by the first successful save: the built document
after one compression pass. -/
def savedDoc1 : Document := PdfDocument.new.doc.compress

/-- The document written by the second successful save: the stored
document after a second compression pass. -/
def savedDoc2 : Document := savedDoc1.compress

/-- C8: after initialization, saving twice to two different paths writes
two files whose decoded page and content structure is identical (the
decoded views of the two written documents are equal), and the in-memory
slot stays present throughout. -/
theorem save_idempotent_on_structure (p1 p2 : String) (_h : p1 ≠ p2) :
    run ⟨none, []⟩ [HostOp.init, HostOp.save p1 true, HostOp.save p2 true] =
      some ⟨some ⟨savedDoc2, ⟨1, 0⟩⟩, [(p1, savedDoc1), (p2, savedDoc2)]⟩
    ∧ savedDoc1.decodedView = savedDoc2.decodedView :=
  ⟨rfl, rfl⟩

/-- Witness for C8 at two concrete distinct paths. -/
theorem save_idempotent_on_structure_witness :
    ("a.pdf" : String) ≠ "b.pdf"
    ∧ (run ⟨none, []⟩
        [HostOp.init, HostOp.save "a.pdf" true, HostOp.save "b.pdf" true] =
        some ⟨some ⟨savedDoc2, ⟨1, 0⟩⟩,
          [("a.pdf", savedDoc1), ("b.pdf", savedDoc2)]⟩
      ∧ savedDoc1.decodedView = savedDoc2.decodedView) :=
  ⟨by decide, save_idempotent_on_structure "a.pdf" "b.pdf" (by decide)⟩

/-- C9 counterexample: at the concrete program state (the freshly built
document) and the path out.pdf, the save fails with the error ERROR
SAVING DOCUMENT, yet the slot afterwards holds a document equal to the
original one: lopdf's compression pass rewrites a stream only when the
zlib re-encoding shrinks it past the 19-byte threshold, which this
program's 45-byte content stream never passes, so the pass leaves the
stored document unchanged and the claimed mutation does not happen. -/
theorem failed_save_unchanged_cex :
    (roc_fx_save (some PdfDocument.new) "out.pdf" false).result =
      Except.error "ERROR SAVING DOCUMENT"
    ∧ (roc_fx_save (some PdfDocument.new) "out.pdf" false).registry =
      some PdfDocument.new :=
  ⟨rfl, rfl⟩

/-- C9 amended: when the slot is present, save applies the compression
pass to the stored document before attempting the write and does not undo
it on failure: after a failed save the slot holds exactly the
compression-passed document; on this program's document that pass is the
identity (its only stream fails lopdf's zlib-shrink size test), so the
stored document is in fact unchanged by a failed save. -/
theorem failed_save_applies_compress_pass (path : String) :
    roc_fx_save (some PdfDocument.new) path false =
      ⟨.error "ERROR SAVING DOCUMENT",
       some ⟨PdfDocument.new.doc.compress, ⟨1, 0⟩⟩, []⟩
    ∧ PdfDocument.new.doc.compress = PdfDocument.new.doc :=
  ⟨rfl, rfl⟩

/-- C10: the builder creates the document with format version 1.5; the
builder takes no inputs, so the version is fixed. -/
theorem version_is_fixed : PdfDocument.new.doc.version = "1.5" := rfl

end RocPdf
